import Mathlib

/-!
Verification of the code-identity layer of libsecurity_codesigning
(src/lib/diskrep.h and src/lib/Code.h): the DiskRep capability interface,
the FilterRep decorator, the bestGuess resolution entry points, and the
SecCode host/guest object with its static-code cache.

The headers give the declarations, the inline bodies of FilterRep's
forwarding methods, DiskRep::mainExecutableIsMachO, SecCode::isRoot, and
the Context default constructor.  The out-of-line bodies (diskrep.cpp,
Code.cpp) are not among the sources; their behavior is modelled from the
specification where a definition below says so.
-/

/-- Raw bytes of a CFDataRef component. -/
abbrev Bytes := List Nat

/-- CodeDirectory::SpecialSlot, the closed slot enumeration, modelled as an
index. -/
abbrev SpecialSlot := Nat

/-- A CPU architecture selector (security_utilities Architecture). -/
structure Architecture where
  cpuType : Nat
  cpuSubtype : Nat
deriving DecidableEq, BEq

/-- Architecture::none, the unspecified-architecture selector. -/
def Architecture.none : Architecture := ⟨0, 0⟩

/-- A parsed Mach-O/Universal image (external collaborator), abstract. -/
structure Universal where
  imageId : Nat
deriving DecidableEq

/-- A Unix file descriptor for the main executable file. -/
structure FileDesc where
  fdNum : Nat
deriving DecidableEq

/-- An internal-requirements blob (external collaborator), abstract. -/
structure Requirements where
  reqId : Nat
deriving DecidableEq

/-- The resource-rule builder mutated by adjustResources (external
collaborator), abstract. -/
structure ResourceBuilder where
  rules : List Nat
deriving DecidableEq

/-- The cache contents of a DiskRep (its fd, parsed image, resolved paths),
abstract; flush acts on it. -/
abbrev CacheState := Nat

/-- A concrete DiskRep subclass: the pure-virtual queries it must answer
(diskrep.h lines 55-70), plus optional overrides of the virtuals that have
base-class defaults; `none` in an Ovr field means the subclass does not
override and the base-class default applies. -/
structure DiskRepImpl where
  component : SpecialSlot → Option Bytes
  identification : Bytes
  mainExecutablePath : String
  canonicalPath : String
  recommendedIdentifier : String
  signingLimit : Nat
  format : String
  fd : FileDesc
  resourcesRootPathOvr : Option String := none
  defaultResourceRulesOvr : Option (Option Bytes) := none
  adjustResourcesOvr : Option (ResourceBuilder → ResourceBuilder) := none
  defaultRequirementsOvr : Option (Option Architecture → Option Requirements) := none
  mainExecutableImageOvr : Option (Option Universal) := none
  pageSizeOvr : Option Nat := none
  signingBaseOvr : Option Nat := none
  modifiedFilesOvr : Option (List String) := none
  flushOvr : Option (CacheState → CacheState) := none

/-- The one pure-virtual member a concrete FilterRep subclass supplies: its
component override (diskrep.h line 156). -/
structure FilterData where
  component : SpecialSlot → Option Bytes

/-- A DiskRep object as built at runtime: either an instance of a concrete
subclass, or a FilterRep stacked on an underlying representation
(diskrep.h lines 50, 149-174). -/
inductive DiskRep where
  | concrete (impl : DiskRepImpl)
  | filter (filt : FilterData) (orig : DiskRep)

/-- DiskRep::segmentedPageSize (diskrep.h line 101). -/
def DiskRep.segmentedPageSize : Nat := 4096

/-- DiskRep::monolithicPageSize (diskrep.h line 102). -/
def DiskRep.monolithicPageSize : Nat := 0

/-- Modelled from the spec: the DiskRep base-class default for
resourcesRootPath (diskrep.cpp is not among the sources) — a representation
with no resource concept returns the empty answer. -/
def baseResourcesRootPath : String := ""

/-- Modelled from the spec: the base-class default for defaultResourceRules —
absent for representations with no resource concept. -/
def baseDefaultResourceRules : Option Bytes := none

/-- Modelled from the spec: the base-class default for adjustResources — a
no-op on the builder. -/
def baseAdjustResources : ResourceBuilder → ResourceBuilder := fun b => b

/-- Modelled from the spec: the base-class default for defaultRequirements —
no built-in requirement set. -/
def baseDefaultRequirements : Option Architecture → Option Requirements :=
  fun _ => none

/-- Modelled from the spec: the base-class default for mainExecutableImage —
absent unless the representation parses its main executable as Mach-O. -/
def baseMainExecutableImage : Option Universal := none

/-- Modelled from the spec: the base-class default for pageSize — the
segmented default 4096 when the main executable is Mach-O, the monolithic
default 0 otherwise. -/
def basePageSize (machO : Bool) : Nat :=
  if machO then DiskRep.segmentedPageSize else DiskRep.monolithicPageSize

/-- Modelled from the spec: the base-class default for signingBase — 0. -/
def baseSigningBase : Nat := 0

/-- Modelled from the spec: the base-class default for modifiedFiles — the
empty list. -/
def baseModifiedFiles : List String := []

/-- Modelled from the spec: the base-class default for flush — a no-op on the
cache state. -/
def baseFlush : CacheState → CacheState := fun s => s

/-- Virtual dispatch of component: pure virtual on DiskRep (line 55);
FilterRep leaves it pure virtual, so the concrete filter subclass answers
(line 156). -/
def DiskRep.component : DiskRep → SpecialSlot → Option Bytes
  | .concrete impl, slot => impl.component slot
  | .filter filt _, slot => filt.component slot

/-- Virtual dispatch of identification: pure virtual (line 56); FilterRep
forwards to the original (line 159). -/
def DiskRep.identification : DiskRep → Bytes
  | .concrete impl => impl.identification
  | .filter _ orig => orig.identification

/-- Virtual dispatch of mainExecutablePath: pure virtual (line 57); FilterRep
forwards (line 160). -/
def DiskRep.mainExecutablePath : DiskRep → String
  | .concrete impl => impl.mainExecutablePath
  | .filter _ orig => orig.mainExecutablePath

/-- Virtual dispatch of canonicalPath: pure virtual (line 58); FilterRep
forwards (line 161). -/
def DiskRep.canonicalPath : DiskRep → String
  | .concrete impl => impl.canonicalPath
  | .filter _ orig => orig.canonicalPath

/-- Virtual dispatch of recommendedIdentifier: pure virtual (line 59);
FilterRep forwards (line 162). -/
def DiskRep.recommendedIdentifier : DiskRep → String
  | .concrete impl => impl.recommendedIdentifier
  | .filter _ orig => orig.recommendedIdentifier

/-- Virtual dispatch of resourcesRootPath: base default overridable (line 60);
FilterRep forwards (line 163). -/
def DiskRep.resourcesRootPath : DiskRep → String
  | .concrete impl => impl.resourcesRootPathOvr.getD baseResourcesRootPath
  | .filter _ orig => orig.resourcesRootPath

/-- Virtual dispatch of defaultResourceRules: base default overridable
(line 61); FilterRep forwards (line 164). -/
def DiskRep.defaultResourceRules : DiskRep → Option Bytes
  | .concrete impl => impl.defaultResourceRulesOvr.getD baseDefaultResourceRules
  | .filter _ orig => orig.defaultResourceRules

/-- Virtual dispatch of adjustResources (line 62): FilterRep declares no
override, so a filter object answers with the base-class default. -/
def DiskRep.adjustResources : DiskRep → ResourceBuilder → ResourceBuilder
  | .concrete impl => impl.adjustResourcesOvr.getD baseAdjustResources
  | .filter _ _ => baseAdjustResources

/-- Virtual dispatch of defaultRequirements (line 63): FilterRep declares no
override, so a filter object answers with the base-class default. -/
def DiskRep.defaultRequirements : DiskRep → Option Architecture → Option Requirements
  | .concrete impl => impl.defaultRequirementsOvr.getD baseDefaultRequirements
  | .filter _ _ => baseDefaultRequirements

/-- Virtual dispatch of mainExecutableImage: base default overridable
(line 64); FilterRep forwards (line 165). -/
def DiskRep.mainExecutableImage : DiskRep → Option Universal
  | .concrete impl => impl.mainExecutableImageOvr.getD baseMainExecutableImage
  | .filter _ orig => orig.mainExecutableImage

/-- DiskRep::mainExecutableIsMachO (diskrep.h line 73): the main-executable
image is present. -/
def DiskRep.mainExecutableIsMachO (r : DiskRep) : Bool :=
  r.mainExecutableImage.isSome

/-- Virtual dispatch of pageSize (line 65): a concrete subclass may override;
otherwise the base default runs, computed from the dispatched
main-executable image of the object itself.  FilterRep declares no override,
so a filter object runs the base default too. -/
def DiskRep.pageSize : DiskRep → Nat
  | .concrete impl =>
    match impl.pageSizeOvr with
    | some n => n
    | none => basePageSize (DiskRep.concrete impl).mainExecutableIsMachO
  | .filter filt orig => basePageSize (DiskRep.filter filt orig).mainExecutableIsMachO

/-- Whether the representation explicitly overrides pageSize; FilterRep never
does (diskrep.h lines 149-174 declare no pageSize member). -/
def DiskRep.pageSizeOverridden : DiskRep → Bool
  | .concrete impl => impl.pageSizeOvr.isSome
  | .filter _ _ => false

/-- Virtual dispatch of signingBase: base default overridable (line 66);
FilterRep forwards (line 166). -/
def DiskRep.signingBase : DiskRep → Nat
  | .concrete impl => impl.signingBaseOvr.getD baseSigningBase
  | .filter _ orig => orig.signingBase

/-- Virtual dispatch of signingLimit: pure virtual (line 67); FilterRep
forwards (line 167). -/
def DiskRep.signingLimit : DiskRep → Nat
  | .concrete impl => impl.signingLimit
  | .filter _ orig => orig.signingLimit

/-- Virtual dispatch of format: pure virtual (line 68); FilterRep forwards
(line 168). -/
def DiskRep.format : DiskRep → String
  | .concrete impl => impl.format
  | .filter _ orig => orig.format

/-- Virtual dispatch of modifiedFiles (line 69): FilterRep declares no
override, so a filter object answers with the base-class default. -/
def DiskRep.modifiedFiles : DiskRep → List String
  | .concrete impl => impl.modifiedFilesOvr.getD baseModifiedFiles
  | .filter _ _ => baseModifiedFiles

/-- Virtual dispatch of fd: pure virtual (line 70); FilterRep forwards
(line 169). -/
def DiskRep.fd : DiskRep → FileDesc
  | .concrete impl => impl.fd
  | .filter _ orig => orig.fd

/-- Virtual dispatch of flush (line 71), as an action on the representation's
cache state; FilterRep forwards to the original (line 170), so flushing a
filter flushes the shared caches of the underlying representation. -/
def DiskRep.flush : DiskRep → CacheState → CacheState
  | .concrete impl => impl.flushOvr.getD baseFlush
  | .filter _ orig => orig.flush

/-- Virtual dispatch of base (line 54): the default answers the object
itself; FilterRep answers the underlying original (line 153). -/
def DiskRep.base : DiskRep → DiskRep
  | .concrete impl => .concrete impl
  | .filter _ orig => orig

/-- DiskRep::Context (diskrep.h lines 84-89): resolution hints. -/
structure DiskRep.Context where
  arch : Architecture
  offset : Int
  fileOnly : Bool
deriving DecidableEq

/-- The Context default constructor (diskrep.h line 85): arch none, offset 0,
fileOnly false. -/
def DiskRep.Context.init : DiskRep.Context :=
  { arch := Architecture.none, offset := 0, fileOnly := false }

/-- Modelled from the spec: what the resolution heuristic (diskrep.cpp, not
among the sources) can observe about a filesystem path — whether anything is
present there, whether it is a directory with bundle structure, the Mach-O
slices (architecture and byte offset) of the file if it is Mach-O or a fat
container, and whether it is a plain flat file. -/
structure PathInfo where
  present : Bool
  isBundleDir : Bool
  slices : List (Architecture × Nat)
  isFlatFile : Bool

/-- The concrete representation kinds bestGuess can resolve to. -/
inductive ResolvedRep where
  | machO (offset : Nat)
  | bundle
  | flat
deriving DecidableEq

/-- Resolution failure conditions surfaced by bestGuess. -/
inductive ResolveError where
  | unrecognizedFormat
  | ioFailure
deriving DecidableEq

/-- Modelled from the spec: DiskRep::bestGuess (diskrep.h line 91; the body
in diskrep.cpp is not among the sources).  An explicit offset or explicit
architecture in the context takes precedence over auto-detection; fileOnly
suppresses bundle resolution; a path with no recognizable structure fails
with the unrecognized-format condition and no default is guessed. -/
def DiskRep.bestGuess (info : PathInfo) (ctx : Option DiskRep.Context) :
    Except ResolveError ResolvedRep :=
  let c := ctx.getD DiskRep.Context.init
  if info.present = false then Except.error ResolveError.ioFailure
  else if c.offset ≠ 0 then
    match info.slices.find? (fun s => (s.2 : Int) == c.offset) with
    | some s => Except.ok (ResolvedRep.machO s.2)
    | none => Except.error ResolveError.unrecognizedFormat
  else if c.arch ≠ Architecture.none then
    match info.slices.find? (fun s => s.1 == c.arch) with
    | some s => Except.ok (ResolvedRep.machO s.2)
    | none => Except.error ResolveError.unrecognizedFormat
  else if info.isBundleDir = true then
    if c.fileOnly = true then Except.error ResolveError.unrecognizedFormat
    else Except.ok ResolvedRep.bundle
  else
    match info.slices with
    | s :: _ => Except.ok (ResolvedRep.machO s.2)
    | [] =>
      if info.isFlatFile = true then Except.ok ResolvedRep.flat
      else Except.error ResolveError.unrecognizedFormat

/-- Modelled from the spec: DiskRep::bestFileGuess (diskrep.h line 92,
"ctx (if any) + fileOnly") — bestGuess with fileOnly forced true on a copy
of the passed context. -/
def DiskRep.bestFileGuess (info : PathInfo) (ctx : Option DiskRep.Context) :
    Except ResolveError ResolvedRep :=
  let c := ctx.getD DiskRep.Context.init
  DiskRep.bestGuess info (some { c with fileOnly := true })

/-- bestGuess as called with the caller's Context, threading the context
through the call: the second component is the caller's context after the
call.  The declaration takes the context by const pointer (diskrep.h
line 91), so the call hands it back unchanged. -/
def DiskRep.bestGuessSt (info : PathInfo) (ctx : DiskRep.Context) :
    Except ResolveError ResolvedRep × DiskRep.Context :=
  (DiskRep.bestGuess info (some ctx), ctx)

/-- bestFileGuess with the caller's Context threaded through (diskrep.h
line 92 takes it by const pointer): fileOnly is forced on an internal copy,
and the caller's context comes back unchanged. -/
def DiskRep.bestFileGuessSt (info : PathInfo) (ctx : DiskRep.Context) :
    Except ResolveError ResolvedRep × DiskRep.Context :=
  (DiskRep.bestFileGuess info (some ctx), ctx)

/-- The static (on-disk) code object a SecCode resolves to, abstract but
with identity. -/
structure SecStaticCode where
  codeId : Nat
deriving DecidableEq

/-- A code-signing error (OSStatus), abstract. -/
structure CSError where
  code : Nat
deriving DecidableEq

/-- SecCode (Code.h lines 45-72): an optional host reference (mHost) and the
lazily populated static-code cache (mStaticCode). -/
inductive SecCode where
  | mk (mHost : Option SecCode) (mStaticCode : Option SecStaticCode)

/-- SecCode::host (Code.h line 53): accessor for the host reference. -/
def SecCode.host : SecCode → Option SecCode
  | .mk h _ => h

/-- The mStaticCode cache field (Code.h line 71). -/
def SecCode.mStaticCode : SecCode → Option SecStaticCode
  | .mk _ sc => sc

/-- SecCode::isRoot (Code.h line 54): host() == NULL, computed from the host
reference. -/
def SecCode.isRoot (c : SecCode) : Bool :=
  c.host.isNone

/-- Storing a resolved static code in the cache, leaving the host as is. -/
def SecCode.withStaticCode : SecCode → SecStaticCode → SecCode
  | .mk h _, sc => .mk h (some sc)

/-- Modelled from the spec: SecCode::staticCode (Code.h line 55; the body in
Code.cpp is not among the sources).  The outcome of the virtual
getStaticCode hook is supplied as `g`.  Returns the cached static code if
present; otherwise runs the hook, caches the result on success, and leaves
the cache unpopulated on failure.  The second component is the SecCode
after the call. -/
def SecCode.staticCode (c : SecCode) (g : Except CSError SecStaticCode) :
    Except CSError SecStaticCode × SecCode :=
  match c.mStaticCode with
  | some sc => (Except.ok sc, c)
  | none =>
    match g with
    | Except.ok sc => (Except.ok sc, c.withStaticCode sc)
    | Except.error e => (Except.error e, c)

/-- A concrete representation overriding pageSize to a custom value, whose
main executable is not Mach-O. -/
def customPageRep : DiskRepImpl :=
  { component := fun _ => none
    identification := []
    mainExecutablePath := "/x"
    canonicalPath := "/x"
    recommendedIdentifier := "x"
    signingLimit := 100
    format := "custom"
    fd := ⟨3⟩
    pageSizeOvr := some 7 }

/-- A FilterRep stacked on customPageRep whose component override answers
nothing. -/
def customPageFilter : DiskRep :=
  DiskRep.filter ⟨fun _ => none⟩ (DiskRep.concrete customPageRep)

/-- A concrete representation of a flat (non-Mach-O) file with every default
left in place. -/
def flatFileRep : DiskRepImpl :=
  { component := fun _ => none
    identification := [1]
    mainExecutablePath := "/bin/tool"
    canonicalPath := "/bin/tool"
    recommendedIdentifier := "tool"
    signingLimit := 500
    format := "generic"
    fd := ⟨4⟩ }

/-- C1: for every FilterRep over an underlying DiskRep, the seven queries
mainExecutablePath, canonicalPath, recommendedIdentifier, format,
signingBase, signingLimit and fd each return exactly the underlying
representation's answer. -/
theorem FilterRep_nonsignature_queries_forward (filt : FilterData) (orig : DiskRep) :
    (DiskRep.filter filt orig).mainExecutablePath = orig.mainExecutablePath ∧
    (DiskRep.filter filt orig).canonicalPath = orig.canonicalPath ∧
    (DiskRep.filter filt orig).recommendedIdentifier = orig.recommendedIdentifier ∧
    (DiskRep.filter filt orig).format = orig.format ∧
    (DiskRep.filter filt orig).signingBase = orig.signingBase ∧
    (DiskRep.filter filt orig).signingLimit = orig.signingLimit ∧
    (DiskRep.filter filt orig).fd = orig.fd :=
  ⟨rfl, rfl, rfl, rfl, rfl, rfl, rfl⟩

/-- C2 counterexample: pageSize is not forwarded by a FilterRep.  The
underlying representation customPageRep overrides pageSize to 7, yet the
filter stacked on it answers the base-class default 0 (its main executable
is not Mach-O), because FilterRep declares no pageSize override. -/
theorem FilterRep_pageSize_not_forwarded :
    customPageFilter.pageSize ≠ (DiskRep.concrete customPageRep).pageSize := by
  decide

/-- C2 (amended): the queries FilterRep declares — identification,
mainExecutablePath, canonicalPath, recommendedIdentifier, resourcesRootPath,
defaultResourceRules, mainExecutableImage, signingBase, signingLimit,
format, fd and flush — are forwarded verbatim to the underlying
representation, base answers the underlying representation, and component
is answered by the filter subclass; but adjustResources,
defaultRequirements, pageSize and modifiedFiles are not forwarded: the
filter answers them with the DiskRep base-class defaults. -/
theorem FilterRep_forwarding_table (filt : FilterData) (orig : DiskRep) :
    (DiskRep.filter filt orig).identification = orig.identification ∧
    (DiskRep.filter filt orig).mainExecutablePath = orig.mainExecutablePath ∧
    (DiskRep.filter filt orig).canonicalPath = orig.canonicalPath ∧
    (DiskRep.filter filt orig).recommendedIdentifier = orig.recommendedIdentifier ∧
    (DiskRep.filter filt orig).resourcesRootPath = orig.resourcesRootPath ∧
    (DiskRep.filter filt orig).defaultResourceRules = orig.defaultResourceRules ∧
    (DiskRep.filter filt orig).mainExecutableImage = orig.mainExecutableImage ∧
    (DiskRep.filter filt orig).signingBase = orig.signingBase ∧
    (DiskRep.filter filt orig).signingLimit = orig.signingLimit ∧
    (DiskRep.filter filt orig).format = orig.format ∧
    (DiskRep.filter filt orig).fd = orig.fd ∧
    (∀ s, (DiskRep.filter filt orig).flush s = orig.flush s) ∧
    (DiskRep.filter filt orig).base = orig ∧
    (∀ slot, (DiskRep.filter filt orig).component slot = filt.component slot) ∧
    (DiskRep.filter filt orig).adjustResources = baseAdjustResources ∧
    (DiskRep.filter filt orig).defaultRequirements = baseDefaultRequirements ∧
    (DiskRep.filter filt orig).pageSize
      = basePageSize (DiskRep.filter filt orig).mainExecutableIsMachO ∧
    (DiskRep.filter filt orig).modifiedFiles = baseModifiedFiles :=
  ⟨rfl, rfl, rfl, rfl, rfl, rfl, rfl, rfl, rfl, rfl, rfl, fun _ => rfl, rfl,
    fun _ => rfl, rfl, rfl, rfl, rfl⟩

/-- C3: staticCode returns the cached static code when the cache is
populated, otherwise resolves, caches on success, and leaves the cache
unpopulated on failure — so a successful call fixes the identity every
later call returns, and after a failure a later call resolves afresh
exactly as if the failing call had not happened. -/
theorem SecCode_staticCode_cache_spec (c : SecCode)
    (g g2 : Except CSError SecStaticCode) (sc : SecStaticCode) (e : CSError) :
    ((c.staticCode g).1 = Except.ok sc →
      ((c.staticCode g).2.staticCode g2).1 = Except.ok sc) ∧
    (c.mStaticCode = none → (c.staticCode (Except.error e)).2 = c) ∧
    ((c.staticCode (Except.error e)).2.staticCode g2 = c.staticCode g2) := by
  rcases c with ⟨h, msc⟩
  cases msc with
  | some sc0 =>
    refine ⟨?_, ?_, ?_⟩
    · intro hok
      simpa [SecCode.staticCode, SecCode.mStaticCode] using hok
    · intro hnone
      cases hnone
    · rfl
  | none =>
    refine ⟨?_, fun _ => rfl, rfl⟩
    cases g with
    | ok sc1 =>
      intro hok
      have hsc : sc1 = sc := by
        simpa [SecCode.staticCode, SecCode.mStaticCode] using hok
      subst hsc
      simp [SecCode.staticCode, SecCode.mStaticCode, SecCode.withStaticCode]
    | error e1 =>
      intro hok
      simp [SecCode.staticCode, SecCode.mStaticCode] at hok

/-- C3 witness: on a fresh SecCode, resolution succeeding with code 5 caches
it, and a second call returns the same identity even though its resolver
would fail. -/
theorem SecCode_staticCode_cache_spec_witness :
    ((SecCode.mk none none).staticCode (Except.ok ⟨5⟩)).1
        = Except.ok (⟨5⟩ : SecStaticCode) ∧
    (((SecCode.mk none none).staticCode (Except.ok ⟨5⟩)).2.staticCode
        (Except.error ⟨1⟩)).1 = Except.ok (⟨5⟩ : SecStaticCode) :=
  ⟨rfl, (SecCode_staticCode_cache_spec (SecCode.mk none none) (Except.ok ⟨5⟩)
    (Except.error ⟨1⟩) ⟨5⟩ ⟨1⟩).1 rfl⟩

/-- C4: isRoot holds exactly when the host reference is absent; it is
computed from the host accessor, not stored separately. -/
theorem SecCode_isRoot_iff_no_host (c : SecCode) :
    (c.isRoot = true ↔ c.host = none) ∧ c.isRoot = c.host.isNone := by
  refine ⟨?_, rfl⟩
  simp [SecCode.isRoot, Option.isNone_iff_eq_none]

/-- C5: bestFileGuess is bestGuess with fileOnly forced true — for a passed
context, for the absent context, and regardless of the fileOnly value the
caller put in the context. -/
theorem bestFileGuess_is_bestGuess_fileOnly (info : PathInfo) (c : DiskRep.Context) :
    DiskRep.bestFileGuess info (some c)
        = DiskRep.bestGuess info (some { c with fileOnly := true }) ∧
    DiskRep.bestFileGuess info none
        = DiskRep.bestGuess info (some { DiskRep.Context.init with fileOnly := true }) ∧
    DiskRep.bestFileGuess info (some { c with fileOnly := false })
        = DiskRep.bestFileGuess info (some { c with fileOnly := true }) :=
  ⟨rfl, rfl, rfl⟩

/-- C6: bestGuess either returns exactly one concrete representation or
fails with a resolution error, and on a present path with no recognizable
structure (no bundle directory, no Mach-O slice, no flat file) it fails
with the unrecognized-format condition rather than guessing a default. -/
theorem bestGuess_unique_or_error (info : PathInfo) (ctx : Option DiskRep.Context) :
    ((∃ r, DiskRep.bestGuess info ctx = Except.ok r ∧
        ∀ r2, DiskRep.bestGuess info ctx = Except.ok r2 → r2 = r) ∨
      (∃ e, DiskRep.bestGuess info ctx = Except.error e)) ∧
    (info.present = true → info.isBundleDir = false → info.slices = [] →
      info.isFlatFile = false →
      DiskRep.bestGuess info ctx = Except.error ResolveError.unrecognizedFormat) := by
  constructor
  · rcases hres : DiskRep.bestGuess info ctx with e | r
    · exact Or.inr ⟨e, rfl⟩
    · refine Or.inl ⟨r, rfl, fun r2 h2 => ?_⟩
      injection h2 with h3
      exact h3.symm
  · intro hp hb hs hf
    simp [DiskRep.bestGuess, hp, hb, hs, hf]

/-- C6 witness: a present path with no recognizable structure resolves to
the unrecognized-format error. -/
theorem bestGuess_unique_or_error_witness :
    DiskRep.bestGuess ⟨true, false, [], false⟩ none
      = Except.error ResolveError.unrecognizedFormat :=
  (bestGuess_unique_or_error ⟨true, false, [], false⟩ none).2 rfl rfl rfl rfl

/-- C7: a representation that does not explicitly override pageSize answers
the segmented default 4096 when its main executable is Mach-O and the
monolithic default 0 when it is not — the only two sanctioned defaults. -/
theorem pageSize_default_policy (r : DiskRep) :
    r.pageSizeOverridden = false →
    (r.mainExecutableIsMachO = true → r.pageSize = DiskRep.segmentedPageSize) ∧
    (r.mainExecutableIsMachO = false → r.pageSize = DiskRep.monolithicPageSize) := by
  intro hov
  cases r with
  | concrete impl =>
    have hnone : impl.pageSizeOvr = none := by
      simpa [DiskRep.pageSizeOverridden, Option.isSome_iff_ne_none] using hov
    constructor
    · intro hm
      simp [DiskRep.pageSize, hnone, basePageSize, hm]
    · intro hm
      simp [DiskRep.pageSize, hnone, basePageSize, hm]
  | filter filt orig =>
    constructor
    · intro hm
      simp [DiskRep.pageSize, basePageSize, hm]
    · intro hm
      simp [DiskRep.pageSize, basePageSize, hm]

/-- C7 witness: flatFileRep leaves pageSize at its default and its main
executable is not Mach-O, so its page size is the monolithic default 0. -/
theorem pageSize_default_policy_witness :
    (DiskRep.concrete flatFileRep).pageSizeOverridden = false ∧
    (DiskRep.concrete flatFileRep).pageSize = DiskRep.monolithicPageSize :=
  ⟨rfl, (pageSize_default_policy (DiskRep.concrete flatFileRep) rfl).2 rfl⟩

/-- C8: a default-constructed Context carries arch none, offset 0 and
fileOnly false, and neither bestGuess nor bestFileGuess mutates the
caller-supplied context. -/
theorem Context_defaults_and_immutable (info : PathInfo) (ctx : DiskRep.Context) :
    DiskRep.Context.init.arch = Architecture.none ∧
    DiskRep.Context.init.offset = 0 ∧
    DiskRep.Context.init.fileOnly = false ∧
    (DiskRep.bestGuessSt info ctx).2 = ctx ∧
    (DiskRep.bestFileGuessSt info ctx).2 = ctx :=
  ⟨rfl, rfl, rfl, rfl, rfl⟩

/-- C9: the mainExecutableIsMachO helper holds exactly when
mainExecutableImage answers a present Universal image. -/
theorem mainExecutableIsMachO_iff_image_present (r : DiskRep) :
    r.mainExecutableIsMachO = true ↔ r.mainExecutableImage ≠ none := by
  simp [DiskRep.mainExecutableIsMachO, Option.isSome_iff_ne_none]

/-- C10: flushing through a FilterRep performs exactly the underlying
representation's flush on the shared cache state; the filter keeps no local
state of its own to flush. -/
theorem FilterRep_flush_forwards (filt : FilterData) (orig : DiskRep) (s : CacheState) :
    (DiskRep.filter filt orig).flush s = orig.flush s :=
  rfl
